import Mathlib

/-!
Verification of the browser fleet manager (browser_manager.py,
playwright_executor.py, csv_import_utility.py) against its
natural-language specification.  Python functions are shallowly embedded
as Lean functions; each call to the random module is modelled by an
explicit natural-number draw threaded in as an argument, with
random.choice lst r = lst[r % len(lst)] and
random.randint a b r = a + r % (b - a + 1), so that a uniformly random
draw r induces the uniform distribution the Python primitives have.
SQLite queries are embedded as filter / sort / take over lists of rows.
-/

namespace BrowserFleet

/-- Uniform selection of Python random.choice: the list indexed at the
draw modulo its length (with a default for the impossible empty case). -/
def pychoice (l : List α) (default : α) (r : Nat) : α :=
  l.getD (r % l.length) default

/-- Uniform selection of Python random.randint a b: a + (r % (b - a + 1)). -/
def pyrandint (a b r : Nat) : Nat :=
  a + r % (b - a + 1)

/- ----------------------------------------------------------------
   Fingerprint generator: BrowserManager.generate_fingerprint
   (browser_manager.py, lines 60-105).
   ---------------------------------------------------------------- -/

/-- Candidate user agents (browser_manager.py lines 62-67). -/
def user_agents : List String :=
  ["Mozilla/5.0 (Windows NT 10.0; Win64; x64) AppleWebKit/537.36 (KHTML, like Gecko) Chrome/120.0.0.0 Safari/537.36",
   "Mozilla/5.0 (Windows NT 10.0; Win64; x64) AppleWebKit/537.36 (KHTML, like Gecko) Chrome/119.0.0.0 Safari/537.36",
   "Mozilla/5.0 (Macintosh; Intel Mac OS X 10_15_7) AppleWebKit/537.36 (KHTML, like Gecko) Chrome/120.0.0.0 Safari/537.36",
   "Mozilla/5.0 (X11; Linux x86_64) AppleWebKit/537.36 (KHTML, like Gecko) Chrome/120.0.0.0 Safari/537.36"]

/-- Candidate viewports (browser_manager.py lines 69-71). -/
def viewports : List (Nat × Nat) :=
  [(1920, 1080), (1366, 768), (1440, 900), (1536, 864), (1280, 720)]

/-- Candidate timezones (browser_manager.py lines 73-76). -/
def timezones : List String :=
  ["America/New_York", "America/Los_Angeles", "Europe/London",
   "Europe/Paris", "Asia/Tokyo", "Australia/Sydney"]

/-- Candidate locales (browser_manager.py line 78). -/
def locales : List String :=
  ["en-US", "en-GB", "fr-FR", "de-DE", "es-ES", "ja-JP"]

/-- Candidate platforms (browser_manager.py line 79). -/
def platforms : List String :=
  ["Win32", "MacIntel", "Linux x86_64"]

/-- Candidate WebGL vendors (browser_manager.py line 95). -/
def webgl_vendors : List String :=
  ["Google Inc.", "NVIDIA Corporation", "AMD"]

/-- One draw of every call to the random module made by
generate_fingerprint, in source order.  canvas_fingerprint (a random
32-character token), audio_fingerprint (random.uniform(100,200)) and the
font sample are carried as opaque draws since no claim constrains their
distribution. -/
structure FpRand where
  uaIdx : Nat
  viewportIdx : Nat
  timezoneIdx : Nat
  localeIdx : Nat
  platformIdx : Nat
  colorDepthIdx : Nat
  pixelDepthIdx : Nat
  vendorIdx : Nat
  rendererNum : Nat
  canvasToken : String
  audioVal : Nat
  fontsPick : List String
deriving Repr, DecidableEq

/-- The generated fingerprint record (browser_manager.py lines 83-103);
the nested viewport and screen dicts are flattened into named fields. -/
structure Fingerprint where
  user_agent : String
  viewport_width : Nat
  viewport_height : Nat
  timezone : String
  locale : String
  platform : String
  screen_width : Nat
  screen_height : Nat
  colorDepth : Nat
  pixelDepth : Nat
  webgl_vendor : String
  webgl_renderer : String
  canvas_fingerprint : String
  audio_fingerprint : Nat
  fonts : List String
deriving Repr, DecidableEq

/-- BrowserManager.generate_fingerprint (browser_manager.py lines
60-105): every attribute is drawn by plain random.choice over its
candidate list; the screen dict reuses the viewport tuple; the WebGL
renderer is an ANGLE string built from random.randint(10000, 99999). -/
def generate_fingerprint (r : FpRand) : Fingerprint :=
  let viewport := pychoice viewports (0, 0) r.viewportIdx
  { user_agent := pychoice user_agents "" r.uaIdx
    viewport_width := viewport.1
    viewport_height := viewport.2
    timezone := pychoice timezones "" r.timezoneIdx
    locale := pychoice locales "" r.localeIdx
    platform := pychoice platforms "" r.platformIdx
    screen_width := viewport.1
    screen_height := viewport.2
    colorDepth := pychoice [24, 32] 24 r.colorDepthIdx
    pixelDepth := pychoice [24, 32] 24 r.pixelDepthIdx
    webgl_vendor := pychoice webgl_vendors "" r.vendorIdx
    webgl_renderer :=
      "ANGLE (Direct3D11 vs_5_0 ps_5_0, D3D11-" ++
        toString (pyrandint 10000 99999 r.rendererNum) ++ ")"
    canvas_fingerprint := r.canvasToken
    audio_fingerprint := r.audioVal
    fonts := r.fontsPick }

/-- A fixed base random draw used to instantiate concrete fingerprints. -/
def fpRand0 : FpRand :=
  ⟨0, 0, 0, 0, 0, 0, 0, 0, 0, "", 0, []⟩

/- ----------------------------------------------------------------
   C8: viewport dimensions equal screen descriptor dimensions.
   ---------------------------------------------------------------- -/

/-- C8: for every random draw, the generated fingerprint has
viewport width equal to the screen descriptor width and viewport height
equal to the screen descriptor height (both are built from the one
viewport tuple drawn at browser_manager.py line 81). -/
theorem generate_fingerprint_viewport_eq_screen (r : FpRand) :
    (generate_fingerprint r).viewport_width = (generate_fingerprint r).screen_width ∧
    (generate_fingerprint r).viewport_height = (generate_fingerprint r).screen_height := by
  constructor <;> rfl

/- ----------------------------------------------------------------
   C6: claimed uncommon-value weighting for viewport / timezone / locale.
   The code samples each of the three uniformly over the whole candidate
   list (plain random.choice), with no common-subset branch.
   ---------------------------------------------------------------- -/

/-- C6 counterexample: enumerating one full residue period of the draw
shows that viewport, timezone and locale are each sampled uniformly over
the whole candidate list — every candidate is produced by exactly one
residue class of the uniform draw, so there is no common-subset
weighting branch, refuting the claimed non-uniform sampling. -/
theorem generate_fingerprint_uniform_period :
    ((List.range 6).map (fun i =>
        (generate_fingerprint { fpRand0 with timezoneIdx := i }).timezone)) = timezones ∧
    ((List.range 6).map (fun i =>
        (generate_fingerprint { fpRand0 with localeIdx := i }).locale)) = locales ∧
    ((List.range 5).map (fun i =>
        let f := generate_fingerprint { fpRand0 with viewportIdx := i }
        (f.viewport_width, f.viewport_height))) = viewports ∧
    timezones.Nodup ∧ locales.Nodup ∧ viewports.Nodup := by
  refine ⟨by decide, by decide, by decide, by decide, by decide, by decide⟩

/-- C6 amended: viewport, timezone and locale are each sampled uniformly
from the full candidate list — the draw indexes the list modulo its
length, so the sample is a periodic uniform selection with no
common/uncommon weighting. -/
theorem generate_fingerprint_uniform_choice (r : FpRand) :
    (generate_fingerprint r).timezone = timezones.getD (r.timezoneIdx % timezones.length) "" ∧
    (generate_fingerprint r).locale = locales.getD (r.localeIdx % locales.length) "" ∧
    (generate_fingerprint r).viewport_width =
      (viewports.getD (r.viewportIdx % viewports.length) (0, 0)).1 ∧
    (generate_fingerprint r).viewport_height =
      (viewports.getD (r.viewportIdx % viewports.length) (0, 0)).2 := by
  refine ⟨rfl, rfl, rfl, rfl⟩

/- ----------------------------------------------------------------
   C7: claimed joint sampling of the vendor / renderer pair.
   In the code the vendor comes from random.choice over three strings
   (line 95) and the renderer from an independent random.randint
   (line 96); the two draws never read each other.
   ---------------------------------------------------------------- -/

/-- C7 counterexample: with the renderer draw held fixed, changing only
the vendor draw changes the vendor while leaving the renderer string
identical — the same renderer co-occurs with two different vendors, so
the pair is generated from two independent draws, not sampled together
from a set of consistent pairs. -/
theorem webgl_pair_independent_instance :
    (generate_fingerprint { fpRand0 with vendorIdx := 0, rendererNum := 5 }).webgl_vendor ≠
      (generate_fingerprint { fpRand0 with vendorIdx := 1, rendererNum := 5 }).webgl_vendor ∧
    (generate_fingerprint { fpRand0 with vendorIdx := 0, rendererNum := 5 }).webgl_renderer =
      (generate_fingerprint { fpRand0 with vendorIdx := 1, rendererNum := 5 }).webgl_renderer := by
  exact ⟨by decide, rfl⟩

/-- C7 amended: the vendor is drawn uniformly from the three-element
vendor list and the renderer string is built from an independent integer
draw; the two components are independent — the renderer never depends on
the vendor draw and the vendor never depends on the renderer draw. -/
theorem webgl_pair_independent (r : FpRand) (i j m n : Nat) :
    (generate_fingerprint { r with vendorIdx := i, rendererNum := m }).webgl_renderer =
      (generate_fingerprint { r with vendorIdx := j, rendererNum := m }).webgl_renderer ∧
    (generate_fingerprint { r with vendorIdx := i, rendererNum := m }).webgl_vendor =
      (generate_fingerprint { r with vendorIdx := i, rendererNum := n }).webgl_vendor ∧
    (generate_fingerprint { r with vendorIdx := i, rendererNum := m }).webgl_vendor =
      webgl_vendors.getD (i % webgl_vendors.length) "" := by
  refine ⟨rfl, rfl, rfl⟩

end BrowserFleet

namespace BrowserFleet

/- ----------------------------------------------------------------
   Identity store rows and the due-selection query:
   BrowserManager.schedule_browser_batch (browser_manager.py 297-321)
   and BrowserManager.get_pending_commands (browser_manager.py 340-373).
   SQLite ORDER BY col ASC with NULLS FIRST is embedded by sorting on
   the key that maps NULL below every non-NULL timestamp.
   ---------------------------------------------------------------- -/

/-- Sort key for an optional SQLite DATETIME under ASC NULLS FIRST:
NULL maps to 0, a timestamp t to t + 1, so NULL sorts before every
timestamp and timestamps sort ascending. -/
def nullsFirstKey : Option Nat → Nat
  | none => 0
  | some t => t + 1

/-- One row of the browsers table, restricted to the columns the
scheduling query reads (browser_manager.py lines 21-40). -/
structure BrowserRow where
  browser_id : String
  to_interact : Bool
  status : String
  last_interaction : Option Nat
deriving Repr, DecidableEq

/-- The ORDER BY last_interaction ASC NULLS FIRST comparison. -/
def dueRel (a b : BrowserRow) : Prop :=
  nullsFirstKey a.last_interaction ≤ nullsFirstKey b.last_interaction

instance : DecidableRel dueRel := fun _ _ => Nat.decLe _ _

instance : IsTotal BrowserRow dueRel := ⟨fun _ _ => Nat.le_total _ _⟩

instance : IsTrans BrowserRow dueRel := ⟨fun _ _ _ => Nat.le_trans⟩

/-- The WHERE clause of the scheduling query
(browser_manager.py line 304): to_interact = 1 AND status != running. -/
def due_filter (r : BrowserRow) : Bool :=
  r.to_interact && !(r.status == "running")

/-- The row sequence produced by the SELECT of schedule_browser_batch
(browser_manager.py lines 302-307): filter by the WHERE clause, order
by last_interaction ASC NULLS FIRST, truncate to LIMIT. -/
def selectDueRows (rows : List BrowserRow) (limit : Nat) : List BrowserRow :=
  (List.insertionSort dueRel (rows.filter due_filter)).take limit

/-- BrowserManager.schedule_browser_batch (browser_manager.py lines
297-321), restricted to the browser_ids field of the returned batch
command; the scheduled_time / next_batch_time fields are wall-clock
values of datetime.now() and carry no scheduling decision. -/
def schedule_browser_batch (rows : List BrowserRow) (batch_size : Nat) : List String :=
  (selectDueRows rows batch_size).map BrowserRow.browser_id

/-- One row of the commands table, restricted to the columns the
pending-commands query reads (browser_manager.py lines 43-55). -/
structure CommandRow where
  id : Nat
  browser_id : String
  command_type : String
  command_data : String
  status : String
  scheduled_time : Option Nat
deriving Repr, DecidableEq

/-- The ORDER BY scheduled_time ASC comparison (SQLite sorts NULL
first under ASC). -/
def schedRel (a b : CommandRow) : Prop :=
  nullsFirstKey a.scheduled_time ≤ nullsFirstKey b.scheduled_time

instance : DecidableRel schedRel := fun _ _ => Nat.decLe _ _

instance : IsTotal CommandRow schedRel := ⟨fun _ _ => Nat.le_total _ _⟩

instance : IsTrans CommandRow schedRel := ⟨fun _ _ _ => Nat.le_trans⟩

/-- The due-now test of the no-id query (browser_manager.py line 355):
scheduled_time IS NULL OR scheduled_time <= datetime(now). -/
def is_due (now : Nat) : Option Nat → Bool
  | none => true
  | some t => t ≤ now

/-- BrowserManager.get_pending_commands with a browser id
(browser_manager.py lines 345-350): WHERE browser_id = ? AND
status = pending, ORDER BY scheduled_time ASC — no due-now condition. -/
def get_pending_commands_for (rows : List CommandRow) (bid : String) : List CommandRow :=
  List.insertionSort schedRel
    (rows.filter fun c => c.browser_id == bid && c.status == "pending")

/-- BrowserManager.get_pending_commands without a browser id
(browser_manager.py lines 351-357): WHERE status = pending AND
(scheduled_time IS NULL OR scheduled_time <= now), ORDER BY
scheduled_time ASC. -/
def get_pending_commands_all (rows : List CommandRow) (now : Nat) : List CommandRow :=
  List.insertionSort schedRel
    (rows.filter fun c => c.status == "pending" && is_due now c.scheduled_time)

/- ----------------------------------------------------------------
   C1: schedule_browser_batch returns only interactive, non-running
   identities, ordered by last interaction with NULL first, truncated.
   ---------------------------------------------------------------- -/

/-- C1: for every store state and limit, the scheduling query keeps only
rows with to_interact true and status different from running, its result
is sorted by last_interaction ascending with never-interacted (NULL)
rows before all timestamped ones, its length is at most the limit, and
schedule_browser_batch returns exactly the browser ids of those rows. -/
theorem schedule_browser_batch_spec (rows : List BrowserRow) (limit : Nat) :
    ((selectDueRows rows limit).all fun b =>
        b.to_interact && !(b.status == "running")) = true ∧
    List.Sorted dueRel (selectDueRows rows limit) ∧
    (selectDueRows rows limit).length ≤ limit ∧
    schedule_browser_batch rows limit =
      (selectDueRows rows limit).map BrowserRow.browser_id := by
  refine ⟨?_, ?_, ?_, rfl⟩
  · rw [List.all_eq_true]
    intro b hb
    have hb1 : b ∈ List.insertionSort dueRel (rows.filter due_filter) :=
      List.mem_of_mem_take hb
    have hb2 : b ∈ rows.filter due_filter := (List.mem_insertionSort dueRel).1 hb1
    exact (List.mem_filter.1 hb2).2
  · exact List.Pairwise.sublist (List.take_sublist _ _)
      (List.sorted_insertionSort dueRel (rows.filter due_filter))
  · calc (selectDueRows rows limit).length
        = min limit (List.insertionSort dueRel (rows.filter due_filter)).length :=
          List.length_take _ _
      _ ≤ limit := Nat.min_le_left _ _

/- ----------------------------------------------------------------
   C10: the two variants of get_pending_commands.
   ---------------------------------------------------------------- -/

/-- C10: the with-id variant returns exactly the pending commands of
that browser — with no due-now condition, so commands scheduled in the
future are included — ordered by scheduled time ascending, while the
no-id variant returns exactly the pending commands that have no
schedule or are scheduled at or before the current time. -/
theorem get_pending_commands_spec (rows : List CommandRow) (bid : String)
    (now : Nat) (c : CommandRow) :
    (c ∈ get_pending_commands_for rows bid ↔
      c ∈ rows ∧ c.browser_id = bid ∧ c.status = "pending") ∧
    List.Sorted schedRel (get_pending_commands_for rows bid) ∧
    (c ∈ get_pending_commands_all rows now ↔
      c ∈ rows ∧ c.status = "pending" ∧
        (c.scheduled_time = none ∨ ∃ t, c.scheduled_time = some t ∧ t ≤ now)) ∧
    List.Sorted schedRel (get_pending_commands_all rows now) := by
  refine ⟨?_, List.sorted_insertionSort schedRel _, ?_, List.sorted_insertionSort schedRel _⟩
  · rw [get_pending_commands_for, List.mem_insertionSort, List.mem_filter]
    simp [Bool.and_eq_true, beq_iff_eq, and_assoc]
  · rw [get_pending_commands_all, List.mem_insertionSort, List.mem_filter]
    have : is_due now c.scheduled_time = true ↔
        (c.scheduled_time = none ∨ ∃ t, c.scheduled_time = some t ∧ t ≤ now) := by
      cases h : c.scheduled_time with
      | none => simp [is_due]
      | some t => simp [is_due]
    simp [Bool.and_eq_true, beq_iff_eq, this, and_assoc]

end BrowserFleet

namespace BrowserFleet

/- ----------------------------------------------------------------
   Command generator: BrowserManager.generate_interaction_commands
   (browser_manager.py lines 214-295).
   ---------------------------------------------------------------- -/

/-- One generated automation command dict; each key that appears in some
command of generate_interaction_commands is an optional field, absent
keys are none. -/
structure Cmd where
  type : String
  url : Option String := none
  wait_for : Option String := none
  selector : Option String := none
  value : Option String := none
  duration : Option Nat := none
  direction : Option String := none
  amount : Option Nat := none
  index : Option Nat := none
  action : Option String := none
  description : Option String := none
deriving Repr, DecidableEq

/-- The candidate browsing targets of the random navigate command
(browser_manager.py lines 270-274). -/
def browsing_urls : List String :=
  ["https://news.google.com", "https://www.reddit.com", "https://stackoverflow.com"]

/-- BrowserManager.generate_interaction_commands (browser_manager.py
lines 214-295): the fixed ten-command account-login block — whose fill
commands carry the literal placeholder strings, nothing in the
repository substitutes them — followed by four browsing commands whose
url, scroll amount, wait duration and click index come from fresh
random draws u, a, w, c.  The single-quote characters the source embeds
inside CSS selector strings are dropped here; no claim reads them. -/
def generate_interaction_commands (u a w c : Nat) : List Cmd :=
  let email_commands : List Cmd :=
    [{ type := "navigate", url := some "https://gmail.com",
       wait_for := some "input[type=email]" },
     { type := "fill", selector := some "input[type=email]",
       value := some "\x7b\x7bemail_address\x7d\x7d" },
     { type := "click", selector := some "#identifierNext" },
     { type := "wait", duration := some 2000 },
     { type := "fill", selector := some "input[type=password]",
       value := some "\x7b\x7bemail_password\x7d\x7d" },
     { type := "click", selector := some "#passwordNext" },
     { type := "wait_for_navigation" },
     { type := "scroll", direction := some "down", amount := some 300 },
     { type := "click", selector := some "[data-tooltip=Inbox]" },
     { type := "custom_action", action := some "process_emails",
       description := some "Check spam, move important emails, reply with AI" }]
  let browsing_commands : List Cmd :=
    [{ type := "navigate", url := some (pychoice browsing_urls "" u) },
     { type := "scroll", direction := some "down", amount := some (pyrandint 200 500 a) },
     { type := "wait", duration := some (pyrandint 1000 3000 w) },
     { type := "click", selector := some "a", index := some (pyrandint 0 5 c) }]
  email_commands ++ browsing_commands

/- ----------------------------------------------------------------
   C5: the claim that the plan substitutes the bound account address and
   secret for the placeholders and is deterministic.  The code leaves
   the literal placeholder strings in both fill commands — the inline
   source comment at browser_manager.py line 228 announces they will be
   replaced, but no code in the repository performs the substitution and
   the executor fills the literal text — and the browsing block draws
   fresh random targets on every call.
   ---------------------------------------------------------------- -/

/-- C5: evaluating the generator at a concrete draw shows that exactly
the two fill commands still carry the literal unsubstituted
placeholders, and that a second call with a different browsing draw
returns a different plan for the same identity — refuting both the
claimed substitution and the claimed determinism. -/
theorem generate_interaction_commands_placeholders :
    ((generate_interaction_commands 0 0 0 0).filter fun cmd =>
        cmd.value == some "\x7b\x7bemail_address\x7d\x7d" ||
        cmd.value == some "\x7b\x7bemail_password\x7d\x7d").length = 2 ∧
    generate_interaction_commands 0 0 0 0 ≠ generate_interaction_commands 1 0 0 0 := by
  exact ⟨by decide, by decide⟩

end BrowserFleet

namespace BrowserFleet

/- ----------------------------------------------------------------
   Execution engine: PlaywrightExecutor (playwright_executor.py).
   The store-visible state for one identity is its status column, its
   last_interaction column, and whether its id is registered in the
   executor's active_browsers map.  Driver calls are modelled by
   explicit success flags; a raised Python exception is an Except.error
   carried together with the state reached at the raise point.
   ---------------------------------------------------------------- -/

/-- The observable state of one identity during a session: the two
database columns the executor writes, plus membership of the id in the
in-memory active_browsers map. -/
structure ExecState where
  status : String
  last_interaction : Option Nat
  active : Bool
deriving Repr, DecidableEq

/-- PlaywrightExecutor.update_browser_status (playwright_executor.py
lines 321-332): single-column UPDATE of status. -/
def update_browser_status (new_status : String) (s : ExecState) : ExecState :=
  { s with status := new_status }

/-- PlaywrightExecutor.update_browser_last_interaction
(playwright_executor.py lines 334-345): single-column UPDATE of
last_interaction to the current time. -/
def update_browser_last_interaction (now : Nat) (s : ExecState) : ExecState :=
  { s with last_interaction := some now }

/-- PlaywrightExecutor.launch_browser (playwright_executor.py lines
17-47): if any driver call raises (driverOk false), the exception
propagates before any state change; on success the id is registered in
active_browsers (line 42) and then the status is set to running
(line 45). -/
def launch_browser (driverOk : Bool) (s : ExecState) : Except String ExecState :=
  if driverOk then
    Except.ok (update_browser_status "running" { s with active := true })
  else
    Except.error "driver launch failed"

/-- PlaywrightExecutor.close_browser (playwright_executor.py lines
306-319): only when the id is registered in active_browsers, release
the driver resources (their own failures are caught at lines 315-316
and change nothing observable), deregister the id, and set status to
inactive. -/
def close_browser (s : ExecState) : ExecState :=
  if s.active then update_browser_status "inactive" { s with active := false } else s

/-- The body of the try-block of PlaywrightExecutor.execute_command
(playwright_executor.py lines 112-143): the dispatch on the command
type drives the driver only, so its sole observable outcome is whether
some driver call raised, given by the per-command flag. -/
def execute_command_body (raises : Bool) (c : Cmd) : Except String Unit :=
  if raises then Except.error ("Error executing command " ++ c.type) else Except.ok ()

/-- PlaywrightExecutor.execute_command (playwright_executor.py lines
105-145): if the id is not in active_browsers the browser is relaunched
first — that call sits outside the try-block, so its failure
propagates — then the try-block runs the command body and the except
clause turns any body failure into a printed line (returned here as a
log), never a raise. -/
def execute_command (driverOk raises : Bool) (c : Cmd) (s : ExecState) :
    Except String (ExecState × List String) :=
  if s.active then
    match execute_command_body raises c with
    | Except.error e => Except.ok (s, [e])
    | Except.ok _ => Except.ok (s, [])
  else
    match launch_browser driverOk s with
    | Except.error e => Except.error e
    | Except.ok s1 =>
      match execute_command_body raises c with
      | Except.error e => Except.ok (s1, [e])
      | Except.ok _ => Except.ok (s1, [])

/-- The command loop of run_single_browser_session
(playwright_executor.py lines 291-294): execute each command of the
plan in order, with the per-command raise decided by the oracle at the
command index; returns the state reached, the number of commands whose
execution call completed, and the error if one propagated out of
execute_command. -/
def run_commands (driverOk : Bool) (oracle : Nat → Bool) :
    ExecState → Nat → List Cmd → ExecState × Nat × Option String
  | s, _, [] => (s, 0, none)
  | s, i, c :: rest =>
    match execute_command driverOk (oracle i) c s with
    | Except.error e => (s, 0, some e)
    | Except.ok (s1, _) =>
      let (s2, n, err) := run_commands driverOk oracle s1 (i + 1) rest
      (s2, n + 1, err)

/-- PlaywrightExecutor.run_single_browser_session (playwright_executor.py
lines 282-304): launch, generate the plan, execute every command, update
last_interaction; any exception from the try-block is printed by the
except clause (line 299-300), and the finally clause (line 302-304)
always runs close_browser.  touchOk false models the last_interaction
database update itself raising.  Returns the final state and the number
of command executions that completed. -/
def run_single_browser_session (driverOk touchOk : Bool) (oracle : Nat → Bool)
    (u a w c now : Nat) (s : ExecState) : ExecState × Nat :=
  match launch_browser driverOk s with
  | Except.error _ => (close_browser s, 0)
  | Except.ok s1 =>
    let plan := generate_interaction_commands u a w c
    let (s2, n, err) := run_commands driverOk oracle s1 0 plan
    match err with
    | some _ => (close_browser s2, n)
    | none =>
      if touchOk then (close_browser (update_browser_last_interaction now s2), n)
      else (close_browser s2, n)

/-- While the id stays registered in active_browsers, execute_command
never takes the relaunch branch, so it never raises and leaves the
state unchanged; hence the whole command loop keeps the state, counts
every command, and reports no error. -/
theorem run_commands_of_active (driverOk : Bool) (oracle : Nat → Bool)
    (s : ExecState) (hs : s.active = true) :
    ∀ (i : Nat) (plan : List Cmd),
      run_commands driverOk oracle s i plan = (s, plan.length, none) := by
  intro i plan
  induction plan generalizing i with
  | nil => rfl
  | cons c rest ih =>
    show run_commands driverOk oracle s i (c :: rest) = _
    rw [run_commands, execute_command, if_pos hs]
    cases h : execute_command_body (oracle i) c with
    | error e => simp [ih (i + 1)]
    | ok u => simp [ih (i + 1)]

end BrowserFleet

namespace BrowserFleet

/- ----------------------------------------------------------------
   C2: after run_single_browser_session the stored status is inactive.
   ---------------------------------------------------------------- -/

/-- C2: for every identity whose stored status is inactive before the
call, run_single_browser_session leaves the stored status inactive —
whether the driver launch failed (no state was touched, the finally
clause finds the id unregistered and changes nothing), or the session
ran (the finally clause closes the registered browser and resets the
status), including when any later step such as the last_interaction
update raised. -/
theorem run_single_session_status_inactive (driverOk touchOk : Bool)
    (oracle : Nat → Bool) (u a w c now : Nat) (s : ExecState)
    (h : s.status = "inactive") :
    (run_single_browser_session driverOk touchOk oracle u a w c now s).1.status =
      "inactive" := by
  cases driverOk with
  | false =>
    show ((close_browser s, 0) : ExecState × Nat).1.status = "inactive"
    unfold close_browser
    by_cases ha : s.active
    · simp [ha, update_browser_status]
    · simp [ha, h]
  | true =>
    have hrc := run_commands_of_active true oracle
      (ExecState.mk "running" s.last_interaction true) rfl 0
      (generate_interaction_commands u a w c)
    cases touchOk <;>
      simp [run_single_browser_session, launch_browser, update_browser_status,
        hrc, close_browser, update_browser_last_interaction]

/-- C2 witness: a concrete identity starting inactive is still inactive
after a session in which the driver launch fails. -/
theorem run_single_session_status_inactive_witness :
    (ExecState.mk "inactive" none false).status = "inactive" ∧
    (run_single_browser_session false false (fun _ => true) 0 0 0 0 7
        (ExecState.mk "inactive" none false)).1.status = "inactive" :=
  ⟨rfl, run_single_session_status_inactive false false (fun _ => true) 0 0 0 0 7
      (ExecState.mk "inactive" none false) rfl⟩

/- ----------------------------------------------------------------
   C3: per-command failures are swallowed; the session still attempts
   every command and succeeds (the last_interaction update runs).
   ---------------------------------------------------------------- -/

/-- C3: when the launch and the final database update succeed, a session
in which any single command (the one at index k, and possibly others)
raises still attempts every command of the plan — the completed
execution count equals the plan length, so every later command was
attempted — and the session outcome is success: last_interaction is set
to the current time. -/
theorem run_single_session_swallows_command_failures (oracle : Nat → Bool)
    (k u a w c now : Nat) (s : ExecState) (h : oracle k = true) :
    (run_single_browser_session true true oracle u a w c now s).2 =
      (generate_interaction_commands u a w c).length ∧
    (run_single_browser_session true true oracle u a w c now s).1.last_interaction =
      some now := by
  have hrc := run_commands_of_active true oracle
    (ExecState.mk "running" s.last_interaction true) rfl 0
    (generate_interaction_commands u a w c)
  simp [run_single_browser_session, launch_browser, update_browser_status,
    hrc, close_browser, update_browser_last_interaction]

/-- C3 witness: the 14-command plan with the command at index 2 (the
third command) raising is fully attempted and the session outcome is
success. -/
theorem run_single_session_swallows_witness :
    (fun i => decide (i = 2)) 2 = true ∧
    (run_single_browser_session true true (fun i => decide (i = 2)) 0 0 0 0 9
        (ExecState.mk "inactive" none false)).2 =
      (generate_interaction_commands 0 0 0 0).length ∧
    (run_single_browser_session true true (fun i => decide (i = 2)) 0 0 0 0 9
        (ExecState.mk "inactive" none false)).1.last_interaction = some 9 :=
  ⟨by decide,
   (run_single_session_swallows_command_failures (fun i => decide (i = 2)) 2 0 0 0 0 9
      (ExecState.mk "inactive" none false) (by decide)).1,
   (run_single_session_swallows_command_failures (fun i => decide (i = 2)) 2 0 0 0 0 9
      (ExecState.mk "inactive" none false) (by decide)).2⟩

end BrowserFleet

namespace BrowserFleet

/- ----------------------------------------------------------------
   Continuous scheduler loop: BrowserScheduler.start_continuous_automation
   (playwright_executor.py lines 354-370).  One iteration of the while
   loop either completes the batch and sleeps interval_minutes * 60
   seconds, or catches an escaped batch error, logs it, and sleeps a
   fixed 60 seconds; in both cases the loop continues.
   ---------------------------------------------------------------- -/

/-- What one batch run inside the while loop did: completed, or raised
an error that escaped session containment. -/
inductive LoopEvent where
  | batchOk
  | batchRaise
deriving Repr, DecidableEq

/-- One iteration of the while loop of start_continuous_automation
(playwright_executor.py lines 359-370): the sleep in seconds performed
after the batch, and whether the loop keeps running. -/
def loop_iteration : LoopEvent → Nat → Nat × Bool
  | LoopEvent.batchOk, interval_minutes => (interval_minutes * 60, true)
  | LoopEvent.batchRaise, _ => (60, true)

/-- The while loop run over a finite trace of batch outcomes: the list
of sleeps it performs; every event is consumed, an escaped batch error
never ends the recursion. -/
def run_loop (interval_minutes : Nat) : List LoopEvent → List Nat
  | [] => []
  | e :: rest => (loop_iteration e interval_minutes).1 :: run_loop interval_minutes rest

/-- C4 counterexample: with the loop configured at interval_minutes = 1
the error backoff of 60 seconds equals the normal inter-batch sleep of
60 seconds, so the fixed backoff is not strictly shorter than the
normal interval for every configured interval. -/
theorem continuous_loop_backoff_not_shorter_at_one :
    (loop_iteration LoopEvent.batchRaise 1).1 = 60 ∧
    (loop_iteration LoopEvent.batchOk 1).1 = 60 ∧
    ¬ (loop_iteration LoopEvent.batchRaise 1).1 <
        (loop_iteration LoopEvent.batchOk 1).1 := by
  exact ⟨rfl, rfl, by decide⟩

/-- C4 amended: when an unexpected error escapes a batch run the loop
logs it and sleeps a fixed 60-second backoff and keeps running; the
backoff is strictly shorter than the normal inter-batch sleep whenever
the configured interval is at least 2 minutes (in particular at the
default 5), and the loop consumes every subsequent batch outcome, so
the error never terminates it. -/
theorem continuous_loop_backoff (interval_minutes : Nat) (h : 2 ≤ interval_minutes) :
    (loop_iteration LoopEvent.batchRaise interval_minutes).1 = 60 ∧
    (loop_iteration LoopEvent.batchRaise interval_minutes).1 <
      (loop_iteration LoopEvent.batchOk interval_minutes).1 ∧
    (loop_iteration LoopEvent.batchRaise interval_minutes).2 = true ∧
    ∀ events : List LoopEvent,
      (run_loop interval_minutes events).length = events.length := by
  refine ⟨rfl, ?_, rfl, ?_⟩
  · show 60 < interval_minutes * 60
    omega
  · intro events
    induction events with
    | nil => rfl
    | cons e rest ih => simp [run_loop, ih]

/-- C4 witness: at the default interval of 5 minutes the 60-second
backoff is strictly shorter than the 300-second inter-batch sleep. -/
theorem continuous_loop_backoff_witness :
    2 ≤ 5 ∧
    (loop_iteration LoopEvent.batchRaise 5).1 < (loop_iteration LoopEvent.batchOk 5).1 :=
  ⟨by decide, (continuous_loop_backoff 5 (by decide)).2.1⟩

end BrowserFleet

namespace BrowserFleet

/- ----------------------------------------------------------------
   Proxy import: CSVImportUtility (csv_import_utility.py).
   The proxies table (lines 18-30) has no uniqueness constraint on
   (host, port, username); rows are appended with an autoincrement id.
   ---------------------------------------------------------------- -/

/-- One row of the proxies table (csv_import_utility.py lines 18-30). -/
structure ProxyRow where
  id : Nat
  name : Option String
  host : String
  port : Nat
  username : String
  password : String
  protocol : String
deriving Repr, DecidableEq

/-- The proxies table together with its autoincrement counter. -/
structure ProxyStore where
  rows : List ProxyRow
  nextId : Nat
deriving Repr, DecidableEq

/-- CSVImportUtility.create_or_find_proxy (csv_import_utility.py lines
186-212): select an existing row by host, port and username and return
its id with the store unchanged; otherwise insert a fresh row (name
NULL, protocol defaulting to http) and return the new id. -/
def create_or_find_proxy (st : ProxyStore) (host : String) (port : Nat)
    (username password : String) : Nat × ProxyStore :=
  match st.rows.find? (fun r =>
      r.host == host && r.port == port && r.username == username) with
  | some r => (r.id, st)
  | none =>
    (st.nextId,
     ProxyStore.mk
       (st.rows ++ [ProxyRow.mk st.nextId none host port username password "http"])
       (st.nextId + 1))

/-- One parsed CSV record of the proxy import; port none models a port
field on which int() raises, making the row skipped. -/
structure CsvProxyRow where
  name : String
  host : String
  port : Option Nat
  username : String
  password : String
  protocol : String
deriving Repr, DecidableEq

/-- The per-row body of the import loop of
CSVImportUtility.import_proxies_from_csv (csv_import_utility.py lines
63-81): an unconditional INSERT of the row — no lookup of an existing
(host, port, username) triple — appending the new id, with any per-row
error (the int() parse) caught and the row skipped. -/
def import_proxy_csv_row (st : ProxyStore) (r : CsvProxyRow) : ProxyStore × Option Nat :=
  match r.port with
  | none => (st, none)
  | some p =>
    (ProxyStore.mk
       (st.rows ++ [ProxyRow.mk st.nextId (some r.name) r.host p r.username r.password r.protocol])
       (st.nextId + 1),
     some st.nextId)

/-- CSVImportUtility.import_proxies_from_csv (csv_import_utility.py
lines 49-91): fold the unconditional per-row insert over the parsed
records, collecting the ids of the inserted rows. -/
def import_proxies_from_csv (st : ProxyStore) : List CsvProxyRow → ProxyStore × List Nat
  | [] => (st, [])
  | r :: rest =>
    match import_proxy_csv_row st r with
    | (st1, none) => import_proxies_from_csv st1 rest
    | (st1, some i) =>
      let (st2, ids) := import_proxies_from_csv st1 rest
      (st2, i :: ids)

/-- A one-row proxy store used for the concrete duplicate-import run. -/
def proxyStore0 : ProxyStore :=
  ProxyStore.mk [ProxyRow.mk 1 (some "p") "h1" 8080 "u1" "pw" "http"] 2

/-- C9 counterexample: importing through import_proxies_from_csv a
record whose (host, port, username) triple already has a row in the
store creates a second row with that triple — the CSV proxy import
path performs no deduplication, refuting the claim for that import
operation. -/
theorem import_proxies_from_csv_duplicates :
    ((import_proxies_from_csv proxyStore0
        [CsvProxyRow.mk "p2" "h1" (some 8080) "u1" "pw2" "http"]).1.rows.filter fun r =>
      r.host == "h1" && r.port == 8080 && r.username == "u1").length = 2 := by
  decide

/-- C9 amended: the create_or_find_proxy import path (the one the
browser CSV import uses) deduplicates by (host, port, username): for
every prior store state, when a row with the imported record's triple
already exists, the call returns with the store unchanged, so no second
proxy row is created; the standalone CSV proxy import inserts without
this check. -/
theorem create_or_find_proxy_dedup (st : ProxyStore) (host : String) (port : Nat)
    (username password : String)
    (h : ∃ r ∈ st.rows, r.host = host ∧ r.port = port ∧ r.username = username) :
    (create_or_find_proxy st host port username password).2 = st := by
  have hfind : (st.rows.find? (fun r =>
      r.host == host && r.port == port && r.username == username)).isSome := by
    obtain ⟨r, hr, h1, h2, h3⟩ := h
    exact List.find?_isSome.mpr ⟨r, hr, by simp [h1, h2, h3]⟩
  unfold create_or_find_proxy
  cases hf : st.rows.find? (fun r =>
      r.host == host && r.port == port && r.username == username) with
  | none => rw [hf] at hfind; simp at hfind
  | some r0 => rfl

/-- C9 witness: re-importing the concrete triple already present in the
one-row store through create_or_find_proxy leaves the store unchanged. -/
theorem create_or_find_proxy_dedup_witness :
    (∃ r ∈ proxyStore0.rows, r.host = "h1" ∧ r.port = 8080 ∧ r.username = "u1") ∧
    (create_or_find_proxy proxyStore0 "h1" 8080 "u1" "zz").2 = proxyStore0 :=
  ⟨by decide, create_or_find_proxy_dedup proxyStore0 "h1" 8080 "u1" "zz" (by decide)⟩

end BrowserFleet
